import Mathlib

/-!
Verification development for the skribbl room engine
(`backend/realtime/consumers.py`).

The Python engine is shallowly embedded: the `GameState` dataclass becomes a
Lean structure, Python dicts become insertion-ordered association lists,
Python sets become `Finset`, wall-clock floats become `ℚ`, and every handler
becomes a pure function from a state (plus the environment data the handler
reads: active member ids, current time, random choices) to a new state and a
list of emitted effects.  `load_state_from_redis` / `save_state_to_redis`
are modelled as the identity: the in-process state is the single source of
truth, which is exactly the engine's degraded single-process semantics and
makes the duplicated candidacy re-checks under the lock coincide with the
first check.  `asyncio` task handles are not modelled.
-/

namespace Skribbl

/-! ## Python dict / set primitives -/

/-- Lookup in an insertion-ordered association list (`dict.get(k, v0)`);
dict keys are unique, so the first binding is the binding. -/
def dictGetD {α : Type} : List (Int × α) → Int → α → α
  | [], _, v0 => v0
  | p :: rest, k, v0 => if p.1 == k then p.2 else dictGetD rest k v0

/-- Python `d[k] = v`: update the existing binding in place (keeping its
position), otherwise append at the end. -/
def dictSet {α : Type} : List (Int × α) → Int → α → List (Int × α)
  | [], k, v => [(k, v)]
  | p :: rest, k, v =>
    if p.1 == k then (k, v) :: rest else p :: dictSet rest k v

/-- Python `d.setdefault(k, v)`: insert only when the key is absent. -/
def dictSetd {α : Type} : List (Int × α) → Int → α → List (Int × α)
  | [], k, v => [(k, v)]
  | p :: rest, k, v =>
    if p.1 == k then p :: rest else p :: dictSetd rest k v

/-- Python `d.pop(k, None)`. -/
def dictPop {α : Type} (d : List (Int × α)) (k : Int) : List (Int × α) :=
  d.filter (fun p => p.1 != k)

/-- Membership test for a dict key (`k in d`). -/
def dictMem {α : Type} (d : List (Int × α)) (k : Int) : Bool :=
  d.any (fun p => p.1 == k)

theorem dictGetD_dictSet_self {α : Type} (d : List (Int × α)) (k : Int) (v v0 : α) :
    dictGetD (dictSet d k v) k v0 = v := by
  induction d with
  | nil => simp [dictSet, dictGetD]
  | cons a rest ih =>
    by_cases hak : a.1 = k
    · have h1 : (a.1 == k) = true := by simp [hak]
      simp [dictSet, dictGetD, h1]
    · have h1 : (a.1 == k) = false := by simp [hak]
      simp [dictSet, dictGetD, h1, ih]

theorem dictGetD_dictSet_ne {α : Type} (d : List (Int × α)) (k u : Int) (v v0 : α)
    (h : u ≠ k) : dictGetD (dictSet d k v) u v0 = dictGetD d u v0 := by
  have hku : (k == u) = false := by simp [Ne.symm h]
  induction d with
  | nil => simp [dictSet, dictGetD, hku]
  | cons a rest ih =>
    by_cases hak : a.1 = k
    · have h1 : (a.1 == k) = true := by simp [hak]
      have h2 : (a.1 == u) = false := by simp [hak, Ne.symm h]
      simp [dictSet, dictGetD, h1, h2, hku]
    · have h1 : (a.1 == k) = false := by simp [hak]
      by_cases hau : a.1 = u
      · have h2 : (a.1 == u) = true := by simp [hau]
        simp [dictSet, dictGetD, h1, h2]
      · have h2 : (a.1 == u) = false := by simp [hau]
        simp [dictSet, dictGetD, h1, h2, ih]

theorem dictGetD_dictSetd_default {α : Type} (d : List (Int × α)) (k u : Int) (v0 : α) :
    dictGetD (dictSetd d k v0) u v0 = dictGetD d u v0 := by
  induction d with
  | nil =>
    by_cases hku : k = u
    · have h1 : (k == u) = true := by simp [hku]
      simp [dictSetd, dictGetD, h1]
    · have h1 : (k == u) = false := by simp [hku]
      simp [dictSetd, dictGetD, h1]
  | cons a rest ih =>
    by_cases hak : a.1 = k
    · have h1 : (a.1 == k) = true := by simp [hak]
      simp [dictSetd, dictGetD, h1]
    · have h1 : (a.1 == k) = false := by simp [hak]
      by_cases hau : a.1 = u
      · have h2 : (a.1 == u) = true := by simp [hau]
        simp [dictSetd, dictGetD, h1, h2]
      · have h2 : (a.1 == u) = false := by simp [hau]
        simp [dictSetd, dictGetD, h1, h2, ih]

/-! ## Decimal codec for stringified integer keys

Python serializes integer dict keys with `str(key)` and re-parses them with
`int(key)` on load.  `str`/`int` are embedded as an explicit decimal codec. -/

/-- Decimal digit character for a digit value (`str` uses base 10). -/
def charToDigit (c : Char) : Nat := c.toNat - 48

/-- Little-endian decimal digits of `n`, with explicit fuel so that the
recursion is structural (the fuel `n` itself always suffices). -/
def natDigitsRev : Nat → Nat → List Nat
  | 0, _ => []
  | _ + 1, 0 => []
  | fuel + 1, n + 1 => ((n + 1) % 10) :: natDigitsRev fuel ((n + 1) / 10)

/-- Digit characters of a natural number, most significant first (`str(n)`). -/
def natToDigitChars (n : Nat) : List Char :=
  if n = 0 then ['0'] else ((natDigitsRev n n).map Nat.digitChar).reverse

/-- Value of little-endian decimal digits. -/
def digitsToNat : List Nat → Nat
  | [] => 0
  | d :: rest => d + 10 * digitsToNat rest

/-- Parse a list of decimal digit characters (`int` on a digit string). -/
def digitCharsToNat (l : List Char) : Nat :=
  digitsToNat (l.reverse.map charToDigit)

/-- Python `str(k)` for an integer key. -/
def intToKey (k : Int) : String :=
  if k < 0 then ⟨'-' :: natToDigitChars k.natAbs⟩ else ⟨natToDigitChars k.natAbs⟩

/-- Parse helper for `int(s)` on the underlying character list. -/
def keyToIntAux : List Char → Int
  | [] => 0
  | c :: rest =>
    if c = '-' then -(digitCharsToNat rest : Int) else (digitCharsToNat (c :: rest) : Int)

/-- Python `int(s)` for a decimal string (well-formed inputs: an optional
leading minus sign followed by digits). -/
def keyToInt (s : String) : Int :=
  keyToIntAux s.data

theorem charToDigit_digitChar : ∀ d < 10, charToDigit (Nat.digitChar d) = d := by
  decide

theorem digitChar_ne_dash : ∀ d < 10, Nat.digitChar d ≠ '-' := by
  decide

theorem digitsToNat_natDigitsRev :
    ∀ fuel n : Nat, n ≤ fuel → digitsToNat (natDigitsRev fuel n) = n := by
  intro fuel
  induction fuel with
  | zero =>
    intro n h
    have : n = 0 := Nat.le_zero.mp h
    subst this; rfl
  | succ f ih =>
    intro n h
    cases n with
    | zero => rfl
    | succ m =>
      have hlt : (m + 1) / 10 < m + 1 := Nat.div_lt_self (Nat.succ_pos m) (by norm_num)
      have hle : (m + 1) / 10 ≤ f := by omega
      show digitsToNat (((m + 1) % 10) :: natDigitsRev f ((m + 1) / 10)) = m + 1
      simp only [digitsToNat, ih _ hle]
      omega

theorem natDigitsRev_lt_ten :
    ∀ fuel n d : Nat, d ∈ natDigitsRev fuel n → d < 10 := by
  intro fuel
  induction fuel with
  | zero => intro n d h; simp [natDigitsRev] at h
  | succ f ih =>
    intro n d h
    cases n with
    | zero => simp [natDigitsRev] at h
    | succ m =>
      simp only [natDigitsRev, List.mem_cons] at h
      rcases h with h | h
      · subst h; exact Nat.mod_lt _ (by norm_num)
      · exact ih _ _ h

theorem digitCharsToNat_natToDigitChars (n : Nat) :
    digitCharsToNat (natToDigitChars n) = n := by
  unfold natToDigitChars digitCharsToNat
  by_cases h : n = 0
  · subst h; decide
  · simp only [h, if_false, List.reverse_reverse, List.map_map]
    have hmap : (natDigitsRev n n).map (charToDigit ∘ Nat.digitChar)
        = (natDigitsRev n n).map id :=
      List.map_congr_left
        (fun d hd => charToDigit_digitChar d (natDigitsRev_lt_ten n n d hd))
    rw [hmap, List.map_id, digitsToNat_natDigitsRev n n le_rfl]

theorem natToDigitChars_ne_nil (n : Nat) : natToDigitChars n ≠ [] := by
  unfold natToDigitChars
  by_cases h : n = 0
  · simp [h]
  · simp only [h, if_false]
    cases n with
    | zero => exact absurd rfl h
    | succ m => simp [natDigitsRev]

theorem natToDigitChars_head_ne_dash (n : Nat) (c : Char) (rest : List Char)
    (h : natToDigitChars n = c :: rest) : c ≠ '-' := by
  have hmem : c ∈ natToDigitChars n := by rw [h]; exact List.mem_cons_self c rest
  unfold natToDigitChars at hmem
  by_cases h0 : n = 0
  · simp [h0] at hmem; subst hmem; decide
  · simp only [h0, if_false, List.mem_reverse, List.mem_map] at hmem
    obtain ⟨d, hd, hdc⟩ := hmem
    subst hdc
    exact digitChar_ne_dash d (natDigitsRev_lt_ten n n d hd)

theorem keyToIntAux_dash (rest : List Char) :
    keyToIntAux ('-' :: rest) = -(digitCharsToNat rest : Int) := by
  simp [keyToIntAux]

theorem keyToIntAux_not_dash (c : Char) (rest : List Char) (h : c ≠ '-') :
    keyToIntAux (c :: rest) = (digitCharsToNat (c :: rest) : Int) := by
  simp [keyToIntAux, h]

theorem keyToInt_intToKey (k : Int) : keyToInt (intToKey k) = k := by
  unfold intToKey
  by_cases hk : k < 0
  · simp only [hk, if_true]
    have hd : keyToInt ⟨'-' :: natToDigitChars k.natAbs⟩
        = keyToIntAux ('-' :: natToDigitChars k.natAbs) := rfl
    rw [hd, keyToIntAux_dash, digitCharsToNat_natToDigitChars]
    omega
  · simp only [hk, if_false]
    rcases hl : natToDigitChars k.natAbs with _ | ⟨c, rest⟩
    · exact absurd hl (natToDigitChars_ne_nil k.natAbs)
    · have hc : c ≠ '-' := natToDigitChars_head_ne_dash _ _ _ hl
      have hd : keyToInt ⟨c :: rest⟩ = keyToIntAux (c :: rest) := rfl
      rw [hd, keyToIntAux_not_dash c rest hc, ← hl,
        digitCharsToNat_natToDigitChars]
      omega

/-! ## Engine constants (`consumers.py` module constants) -/

def CHAT_WINDOW_SECONDS : Int := 4
def CHAT_MAX_BURST : Nat := 3
def ROUND_BREAK_SECONDS : Int := 5
def KICK_VOTE_SECONDS : Int := 20
def MAX_CHAT_COOLDOWN : Int := 12
def TIMER_OWNER_GRACE_SECONDS : Int := 15

/-! ## The game state

The serialized fields of the `GameState` dataclass plus the transient
per-process chat rate-limit and connection maps.  Task handles
(`task`, `disconnect_tasks`, `kick_timeout_tasks`) are not modelled. -/

structure GameState where
  code : String
  status : String := "waiting"
  round_index : Int := 0
  max_rounds : Int := 10
  round_seconds : Int := 120
  drawer_id : Option Int := none
  word : Option String := none
  scores : List (Int × Int) := []
  guessed : Finset Int := ∅
  revealed_indices : Finset Int := ∅
  started_at : ℚ := 0
  last_drawer_id : Option Int := none
  connections : List (Int × Finset String) := []
  chat_history : List (Int × List ℚ) := []
  chat_penalties : List (Int × Int) := []
  chat_cooldowns : List (Int × ℚ) := []
  kick_votes : List (Int × Finset Int) := []
  kick_responses : List (Int × Finset Int) := []
  deriving DecidableEq

/-- Rational-valued dict lookup used for `chat_cooldowns.get(user_id, 0)`. -/
def qdictGetD (d : List (Int × ℚ)) (k : Int) (v0 : ℚ) : ℚ := dictGetD d k v0

/-! ## Serialization (`state_payload` / `apply_state_payload`)

The JSON payload is embedded as a typed record: `state_payload` always
emits every key, so `apply_state_payload`'s `payload.get(..., default)`
fallbacks never fire on a payload produced by `state_payload`. -/

structure StatePayload where
  status : String
  round_index : Int
  max_rounds : Int
  round_seconds : Int
  drawer_id : Option Int
  word : Option String
  scores : List (String × Int)
  guessed : List Int
  revealed_indices : List Int
  started_at : ℚ
  last_drawer_id : Option Int
  kick_votes : List (String × List Int)
  kick_responses : List (String × List Int)
  deriving DecidableEq

/-- Python `serialize_scores`: stringify the integer keys. -/
def serialize_scores (scores : List (Int × Int)) : List (String × Int) :=
  scores.map (fun p => (intToKey p.1, p.2))

/-- Python `state_payload`: serialize a `GameState` to its JSON form.  Sets
become sorted integer arrays; integer-keyed mappings get stringified keys. -/
def state_payload (state : GameState) : StatePayload where
  status := state.status
  round_index := state.round_index
  max_rounds := state.max_rounds
  round_seconds := state.round_seconds
  drawer_id := state.drawer_id
  word := state.word
  scores := serialize_scores state.scores
  guessed := state.guessed.sort (· ≤ ·)
  revealed_indices := state.revealed_indices.sort (· ≤ ·)
  started_at := state.started_at
  last_drawer_id := state.last_drawer_id
  kick_votes := state.kick_votes.map (fun p => (intToKey p.1, p.2.sort (· ≤ ·)))
  kick_responses := state.kick_responses.map (fun p => (intToKey p.1, p.2.sort (· ≤ ·)))

/-- Python `apply_state_payload`: load serialized fields back into the
state, re-parsing the stringified integer keys; transient fields are kept. -/
def apply_state_payload (state : GameState) (payload : StatePayload) : GameState :=
  { state with
    status := payload.status
    round_index := payload.round_index
    max_rounds := payload.max_rounds
    round_seconds := payload.round_seconds
    drawer_id := payload.drawer_id
    word := payload.word
    scores := payload.scores.map (fun p => (keyToInt p.1, p.2))
    guessed := payload.guessed.toFinset
    revealed_indices := payload.revealed_indices.toFinset
    started_at := payload.started_at
    last_drawer_id := payload.last_drawer_id
    kick_votes := payload.kick_votes.map (fun p => (keyToInt p.1, p.2.toFinset))
    kick_responses := payload.kick_responses.map (fun p => (keyToInt p.1, p.2.toFinset)) }

theorem deserialize_serialize_scores (scores : List (Int × Int)) :
    (serialize_scores scores).map (fun p => (keyToInt p.1, p.2)) = scores := by
  unfold serialize_scores
  rw [List.map_map]
  have h : ∀ p : Int × Int,
      ((fun p : String × Int => (keyToInt p.1, p.2)) ∘
        (fun p : Int × Int => (intToKey p.1, p.2))) p = p := by
    intro p
    simp [keyToInt_intToKey]
  calc scores.map _ = scores.map id := List.map_congr_left (fun p _ => h p)
    _ = scores := List.map_id scores

theorem deserialize_serialize_votes (votes : List (Int × Finset Int)) :
    (votes.map (fun p => (intToKey p.1, p.2.sort (· ≤ ·)))).map
        (fun p => (keyToInt p.1, p.2.toFinset)) = votes := by
  rw [List.map_map]
  have h : ∀ p : Int × Finset Int,
      ((fun p : String × List Int => (keyToInt p.1, p.2.toFinset)) ∘
        (fun p : Int × Finset Int => (intToKey p.1, p.2.sort (· ≤ ·)))) p = p := by
    intro p
    simp [keyToInt_intToKey, Finset.sort_toFinset]
  calc votes.map _ = votes.map id := List.map_congr_left (fun p _ => h p)
    _ = votes := List.map_id votes

/-- Claim C2: for every `GameState` (any status, nullable `drawer_id`/`word`,
any integer-keyed `scores`, any integer sets `guessed`/`revealed_indices`,
any `kick_votes`/`kick_responses`), applying `apply_state_payload` to the
result of `state_payload` restores every serialized field: sets equal by
value, integer-keyed maps equal by key and value with keys re-parsed from
their string form, and all scalar fields unchanged (transient fields are
untouched by serialization, so the states are equal outright). -/
theorem state_payload_roundtrip (s : GameState) :
    apply_state_payload s (state_payload s) = s := by
  simp only [state_payload, apply_state_payload]
  rw [deserialize_serialize_scores, deserialize_serialize_votes,
    deserialize_serialize_votes, Finset.sort_toFinset, Finset.sort_toFinset]

/-! ## Envelopes and emitted effects

Outbound envelopes are a tagged union; user objects are represented by the
user id they carry.  An `Emit` records where an envelope goes (`toSender` =
`send_json` on the acting socket, `toUser` = `send_to_user`, `group` =
`group_send` fan-out) or a KV history write (`kvChat`, `kvClearDraw`). -/

inductive Envelope where
  | errorMsg (message : String)
  | clearMsg (user_id : Option Int)
  | roundStart (round : Int) (max_rounds : Int) (drawer_id : Option Int)
      (masked_word : String) (duration : Int) (scores : List (String × Int))
  | roundSecret (word : String)
  | roundEnd (word : String) (scores : List (String × Int))
      (next_round_in : Int) (reason : String)
  | gameOver (scores : List (String × Int))
  | roundPaused (message : String)
  | chatBlocked (reason : String) (client_id : Option String)
  | chatCooldown (seconds : Int) (client_id : Option String)
  | chatMsg (message : String) (user_id : Option Int) (system : Bool)
      (client_id : Option String)
  | guessCorrect (user_id : Int) (points : Int) (scores : List (String × Int))
  | systemMsg (message : String)
  | kickRequest (target_id : Int) (requester_id : Int) (votes : Int) (required : Int)
  | kickUpdate (target_id : Int) (votes : Int) (required : Int)
      (responded : Int) (eligible : Int)
  | kickCancel (target_id : Int) (reason : String)
  | kicked (reason : String)
  | directDisconnect (target_id : Int) (close_code : Int)
  | presence
  deriving DecidableEq

inductive Emit where
  | toSender (e : Envelope)
  | toUser (target_id : Option Int) (e : Envelope)
  | group (e : Envelope)
  | kvChat (message : String) (system : Bool)
  | kvClearDraw
  deriving DecidableEq

/-! ## Numeric helpers for Python `int()` / `math.ceil` -/

/-- Python `int(q)`: truncation toward zero. -/
def pyInt (q : ℚ) : Int :=
  if q < 0 then -((-q).num.fdiv ((-q).den : Int)) else q.num.fdiv (q.den : Int)

/-- Python `math.ceil(q)`. -/
def ratCeil (q : ℚ) : Int := -((-q).num.fdiv (((-q).den : Int)))

/-- Python `str.lower()`. -/
def pyLower (w : String) : String := ⟨w.data.map Char.toLower⟩

/-- Python `str.strip()`: drop leading and trailing whitespace. -/
def pyStrip (s : String) : String :=
  ⟨((s.data.dropWhile Char.isWhitespace).reverse.dropWhile Char.isWhitespace).reverse⟩

/-- Python truthiness of an optional string (`None` and `""` are falsy). -/
def strTruthy : Option String → Bool
  | none => false
  | some w => !(w == "")

/-! ## Pure helpers from the consumer -/

/-- Python `mask_word`: space stays space, revealed positions show the
uppercased letter, everything else is an underscore, joined by spaces. -/
def mask_word (word : String) (revealed : Finset Int) : String :=
  String.intercalate " " (word.data.enum.map (fun p =>
    if p.2 = ' ' then " "
    else if (p.1 : Int) ∈ revealed then String.mk [p.2.toUpper] else "_"))

/-- Python `choose_drawer`: exclude the last drawer when that leaves
someone, else pick among everyone; `pick` abstracts `random.choice`. -/
def choose_drawer (pick : List Int → Int) (active_ids : List Int)
    (last_drawer_id : Option Int) : Option Int :=
  if active_ids.isEmpty then none
  else if active_ids.length = 1 then active_ids.head?
  else
    let choices := active_ids.filter (fun uid => some uid ≠ last_drawer_id)
    let choices := if choices.isEmpty then active_ids else choices
    some (pick choices)

/-- Python `required_votes`: `max(1, math.ceil(len(eligible) * 0.8))`.  The
float literal `0.8` coincides with the rational `4/5` for every list length
a room can reach (≤ 8 players). -/
def required_votes (active_ids : List Int) (target_id : Int) : Int :=
  let eligible := active_ids.filter (fun uid => uid != target_id)
  max 1 (ratCeil ((eligible.length : ℚ) * (4 / 5)))

/-! ## Environment

Data a handler reads from outside the game state: the DB's active member
ids, the wall clock, and the outcomes of `random.choice`. -/

structure Env where
  active_ids : List Int
  now : ℚ
  word : String
  pick : List Int → Int

/-! ## Round orchestrator -/

/-- Python `finish_game` (state transition and broadcast; timer-owner
release acts on the KV, modelled separately). -/
def finish_game (s : GameState) : GameState × List Emit :=
  let s2 := { s with status := "finished", word := none, drawer_id := none }
  (s2, [.group (.gameOver (serialize_scores s2.scores))])

/-- Python `start_round`.  `env.word` is the `random.choice(WORDS)` outcome
and `env.pick` the drawer choice; the timer-ownership claim and the timer
task act on the KV and the task arena, modelled separately. -/
def start_round (env : Env) (s : GameState) : GameState × List Emit :=
  if s.status = "running" then (s, [])
  else if env.active_ids.length < 2 then
    (s, [.toSender (.errorMsg "Need at least 2 players to start.")])
  else if s.round_index + 1 > s.max_rounds then finish_game s
  else
    let drawer := choose_drawer env.pick env.active_ids s.last_drawer_id
    let s2 := { s with
      status := "running"
      round_index := s.round_index + 1
      word := some env.word
      guessed := ∅
      revealed_indices := ∅
      started_at := env.now
      drawer_id := drawer
      last_drawer_id := drawer }
    let masked := mask_word env.word ∅
    (s2, [.kvClearDraw,
          .group (.clearMsg drawer),
          .group (.roundStart s2.round_index s2.max_rounds drawer masked
            s2.round_seconds (serialize_scores s2.scores)),
          .toUser drawer (.roundSecret env.word)])

/-- Python `start_game`: no-op while running, else delegate to
`start_round`. -/
def start_game (env : Env) (s : GameState) : GameState × List Emit :=
  if s.status = "running" then (s, []) else start_round env s

/-- Python `maybe_start_game` (runs at the end of `connect`).  The third
component records whether `start_round` was invoked. -/
def maybe_start_game (env : Env) (s : GameState) : GameState × List Emit × Bool :=
  if s.status ≠ "waiting" ∨ s.round_index > 0 then (s, [], false)
  else if env.active_ids.length ≥ 2 then
    let r := start_round env s
    (r.1, r.2, true)
  else (s, [], false)

/-- Python `end_round`: a no-op unless running; otherwise snapshot word and
scores, reset the round fields, broadcast `round_end`, append the system
chat line, then (after the round break) start the next round or finish. -/
def end_round (env : Env) (s : GameState) (reason : String) : GameState × List Emit :=
  if s.status ≠ "running" then (s, [])
  else
    let word := s.word.getD ""
    let scores_payload := serialize_scores s.scores
    let current_round := s.round_index
    let mr := s.max_rounds
    let s2 := { s with
      status := "waiting"
      word := none
      drawer_id := none
      guessed := ∅
      revealed_indices := ∅ }
    let ems := [Emit.group (.roundEnd word scores_payload ROUND_BREAK_SECONDS reason),
                Emit.kvChat ("Word was: " ++ word) true]
    let next := if current_round < mr then start_round env s2 else finish_game s2
    (next.1, ems ++ next.2)

/-- Python `maybe_pause_game`, with the active member ids as re-queried
after the triggering membership change. -/
def maybe_pause_game (active_ids : List Int) (s : GameState) : GameState × List Emit :=
  if active_ids.length ≥ 2 then (s, [])
  else if s.status = "running" then
    ({ s with status := "waiting", word := none, drawer_id := none },
     [.group (.roundPaused "Need at least 2 players to continue.")])
  else (s, [])

/-! ## Chat and guess pipeline -/

/-- Python `check_chat_allowed`: sliding-window rate limit with growing
penalty.  Returns the updated state, whether the message may proceed, and
the cooldown seconds to report when it may not. -/
def check_chat_allowed (s : GameState) (user_id : Int) (now : ℚ) :
    GameState × Bool × Int :=
  let cooldown_until := qdictGetD s.chat_cooldowns user_id 0
  if now < cooldown_until then
    (s, false, max 1 (pyInt (cooldown_until - now)))
  else
    let history := dictGetD s.chat_history user_id []
    let history := history.dropWhile (fun t => now - t > (CHAT_WINDOW_SECONDS : ℚ))
    if history.length ≥ CHAT_MAX_BURST then
      let penalty := min MAX_CHAT_COOLDOWN (dictGetD s.chat_penalties user_id 0 + 2)
      ({ s with
          chat_history := dictSet s.chat_history user_id history
          chat_penalties := dictSet s.chat_penalties user_id penalty
          chat_cooldowns := dictSet s.chat_cooldowns user_id (now + (penalty : ℚ)) },
       false, penalty)
    else
      let history2 := history ++ [now]
      let current_penalty := dictGetD s.chat_penalties user_id 0
      let penalties :=
        if current_penalty > 0 then
          dictSet s.chat_penalties user_id (max 0 (current_penalty - 1))
        else s.chat_penalties
      ({ s with
          chat_history := dictSet s.chat_history user_id history2
          chat_penalties := penalties },
       true, 0)

/-- Guess candidacy (`handle_chat_guess`): running, truthy word, sender is
not the drawer, has not guessed yet, and the lowercased message matches the
lowercased word.  The same condition is evaluated again under the lock in
the source; with the in-process state authoritative both coincide. -/
def is_guess_candidate (s : GameState) (user_id : Int) (normalized : String) : Bool :=
  s.status == "running" && strTruthy s.word &&
    s.drawer_id != some user_id && !(decide (user_id ∈ s.guessed)) &&
    normalized == pyLower (s.word.getD "")

/-- The locked scoring block of `handle_chat_guess`: points are computed
from `guessed` before the sender is added; the sender's score grows by the
points and the drawer's by 10 when `drawer_id` is truthy.  Returns the
updated state and the points awarded. -/
def apply_correct_guess (s : GameState) (user_id : Int) : GameState × Int :=
  let points := max 20 (100 - 10 * (s.guessed.card : Int))
  let s2 := { s with guessed := insert user_id s.guessed }
  let s3 := { s2 with
    scores := dictSet s2.scores user_id (dictGetD s2.scores user_id 0 + points) }
  let s4 :=
    match s3.drawer_id with
    | some d =>
      if d ≠ 0 then
        { s3 with scores := dictSet s3.scores d (dictGetD s3.scores d 0 + 10) }
      else s3
    | none => s3
  (s4, points)

/-- Python `handle_chat_guess`: drawer block, rate limit, correct-guess
scoring with possible round end, else plain chat fan-out. -/
def handle_chat_guess (env : Env) (s : GameState) (user_id : Int) (name : String)
    (message : String) (client_id : Option String) : GameState × List Emit :=
  if s.status = "running" ∧ s.drawer_id = some user_id then
    (s, [.toSender (.chatBlocked "Chat disabled while drawing." client_id)])
  else
    let r := check_chat_allowed s user_id env.now
    let s := r.1
    if r.2.1 = false then
      (s, [.toSender (.chatCooldown r.2.2 client_id)])
    else
      let normalized := pyLower message
      if is_guess_candidate s user_id normalized then
        let g := apply_correct_guess s user_id
        let s := g.1
        let points := g.2
        let end_due :=
          (s.guessed.card : Int) ≥ max 0 ((env.active_ids.length : Int) - 1)
        let system_message :=
          "[Correct] " ++ name ++ " guessed correctly (+" ++ toString points ++ ")"
        let ems := [Emit.group (.guessCorrect user_id points (serialize_scores s.scores)),
                    Emit.group (.chatMsg system_message none true none),
                    Emit.kvChat system_message true]
        if end_due then
          let e := end_round env s "all_guessed"
          (e.1, ems ++ e.2)
        else (s, ems)
      else
        (s, [Emit.group (.chatMsg message (some user_id) false client_id),
             Emit.kvChat message false])

/-- The `chat` branch of `receive_json`: `(content.get("message") or
"").strip()`; empty messages are dropped before any processing. -/
def receive_chat (env : Env) (s : GameState) (user_id : Int) (name : String)
    (raw_message : Option String) (client_id : Option String) : GameState × List Emit :=
  let message := pyStrip (raw_message.getD "")
  if message = "" then (s, [])
  else handle_chat_guess env s user_id name message client_id

/-! ## Connection manager and moderation -/

/-- The locked admission section of `connect`: register the socket handle
under `connections[user_id]` and create the user's score entry at 0 when
absent (`scores.setdefault(user.id, 0)`). -/
def connect_register (s : GameState) (user_id : Int) (channel : String) : GameState :=
  { s with
    connections := dictSet s.connections user_id
      (insert channel (dictGetD s.connections user_id ∅))
    scores := dictSetd s.scores user_id 0 }

/-- Python `cancel_kick_vote` (timeout-task cancellation not modelled). -/
def cancel_kick_vote (s : GameState) (target_id : Int) (reason : String) :
    GameState × List Emit :=
  ({ s with
      kick_votes := dictPop s.kick_votes target_id
      kick_responses := dictPop s.kick_responses target_id },
   [.group (.kickCancel target_id reason)])

/-- Python `kick_user`: cancel the vote, announce, notify the target, drop
its connections and broadcast the self-close command (close code 4003),
then presence.  The DB membership flip and KV counter reset act on
external stores. -/
def kick_user (s : GameState) (target_id : Int) (reason : String) :
    GameState × List Emit :=
  let c := cancel_kick_vote s target_id reason
  let msg := "Player " ++ toString target_id ++ " was removed (" ++ reason ++ ")."
  let s2 := { c.1 with connections := dictPop c.1.connections target_id }
  (s2, c.2 ++ [Emit.kvChat msg true,
               Emit.group (.systemMsg msg),
               Emit.toUser (some target_id) (.kicked reason),
               Emit.group (.directDisconnect target_id 4003),
               Emit.group .presence])

/-- Python `handle_kick_request` (the 20s timeout task is not modelled). -/
def handle_kick_request (env : Env) (s : GameState) (user_id target_id : Int) :
    GameState × List Emit :=
  if target_id = user_id then (s, [])
  else if s.kick_votes ≠ [] then
    (s, [.toSender (.errorMsg "Kick vote already in progress.")])
  else if ¬ (target_id ∈ env.active_ids) then (s, [])
  else
    let voters : Finset Int := insert user_id (dictGetD s.kick_votes target_id ∅)
    let responses : Finset Int := insert user_id (dictGetD s.kick_responses target_id ∅)
    let s2 := { s with
      kick_votes := dictSet s.kick_votes target_id voters
      kick_responses := dictSet s.kick_responses target_id responses }
    let required := required_votes env.active_ids target_id
    let ems := [Emit.group (.kickRequest target_id user_id (voters.card : Int) required),
                Emit.kvChat ("Kick vote started for player " ++ toString target_id ++ ".") true]
    if (voters.card : Int) ≥ required then
      let k := kick_user s2 target_id "Voted out"
      (k.1, ems ++ k.2)
    else (s2, ems)

/-- Python `handle_kick_vote`. -/
def handle_kick_vote (env : Env) (s : GameState) (user_id target_id : Int)
    (approve : Bool) : GameState × List Emit :=
  if target_id = user_id then (s, [])
  else if ¬ dictMem s.kick_votes target_id then (s, [])
  else
    let eligible := env.active_ids.filter (fun uid => uid != target_id)
    if ¬ (user_id ∈ eligible) then (s, [])
    else
      let voters := dictGetD s.kick_votes target_id ∅
      let responses := dictGetD s.kick_responses target_id ∅
      if user_id ∈ responses then (s, [])
      else
        let responses := insert user_id responses
        let voters := if approve then insert user_id voters else voters
        let voters := voters.filter (fun v => v ∈ eligible)
        let responses := responses.filter (fun v => v ∈ eligible)
        let required := required_votes env.active_ids target_id
        let s2 := { s with
          kick_votes := dictSet s.kick_votes target_id voters
          kick_responses := dictSet s.kick_responses target_id responses }
        if (voters.card : Int) ≥ required then kick_user s2 target_id "Voted out"
        else
          (s2, [Emit.group (.kickUpdate target_id (voters.card : Int) required
            (responses.card : Int) (eligible.length : Int))])

/-- Python `handle_leave`: the self-kick path.  `active_after` is the DB's
active member list after this member is flipped inactive. -/
def handle_leave (active_after : List Int) (s : GameState) (user_id : Int) :
    GameState × List Emit :=
  let s2 := { s with connections := dictPop s.connections user_id }
  let ems := [Emit.group (.directDisconnect user_id 4003), Emit.group .presence]
  let p := maybe_pause_game active_after s2
  (p.1, ems ++ p.2)

/-! ## Timer ownership -/

/-- The JSON value stored under `room:{CODE}:timer_owner`. -/
structure TimerOwner where
  channel : String
  round_index : Int
  started_at : ℚ
  deriving DecidableEq

/-- Result of a `claim_timer_owner` call: the owner value in the KV
afterwards, the TTL passed to `SET` when a write happened, and whether the
caller owns the timer. -/
structure ClaimResult where
  owner : TimerOwner
  written_ttl : Option Int
  claimed : Bool
  deriving DecidableEq

/-- Python `claim_timer_owner`: try `SET NX`; on conflict, read the stored
owner and supersede it unconditionally when its `(round_index, started_at)`
does not match the requested pair (within 0.01s), else ownership is decided
by channel equality.  `current` is the stored value at the call (none when
the key is absent, so `NX` succeeds). -/
def claim_timer_owner (channel : String) (current : Option TimerOwner)
    (round_index : Int) (started_at : ℚ) : ClaimResult :=
  let payload : TimerOwner := ⟨channel, round_index, started_at⟩
  let ttl := max 10 (TIMER_OWNER_GRACE_SECONDS + 2)
  match current with
  | none => ⟨payload, some ttl, true⟩
  | some cur =>
    if cur.round_index ≠ round_index ∨ abs (cur.started_at - started_at) > 1 / 100 then
      ⟨payload, some ttl, true⟩
    else
      ⟨cur, none, cur.channel == channel⟩

/-! ## Claim theorems -/

/-- Does an emitted effect broadcast a `round_end` envelope? -/
def isRoundEndEmit : Emit → Bool
  | Emit.group (Envelope.roundEnd _ _ _ _) => true
  | _ => false

theorem countP_isRoundEndEmit_start_round (env : Env) (s : GameState) :
    (start_round env s).2.countP isRoundEndEmit = 0 := by
  unfold start_round finish_game
  split_ifs <;> simp [isRoundEndEmit]

theorem countP_isRoundEndEmit_finish_game (s : GameState) :
    (finish_game s).2.countP isRoundEndEmit = 0 := by
  unfold finish_game
  simp [isRoundEndEmit]

/-- Claim C9: invoking `end_round` on a state whose status is not
"running" leaves the game state unchanged and emits nothing (in particular
no `round_end` broadcast); moreover any single `end_round` invocation
broadcasts at most one `round_end`, so when the round timer and the
all-guessed path both try to end the same round, the loser hits the
status guard and the transition and broadcast happen at most once. -/
theorem end_round_not_running_noop (env : Env) (s : GameState) (reason : String) :
    (s.status ≠ "running" → end_round env s reason = (s, [])) ∧
    (end_round env s reason).2.countP isRoundEndEmit ≤ 1 := by
  constructor
  · intro h
    unfold end_round
    simp [h]
  · unfold end_round
    by_cases h : s.status ≠ "running"
    · simp [h]
    · simp only [h, if_false, if_neg h]
      split_ifs with h2
      · simp [List.countP_append, countP_isRoundEndEmit_start_round, isRoundEndEmit,
          List.countP_cons]
      · simp [List.countP_append, countP_isRoundEndEmit_finish_game, isRoundEndEmit,
          List.countP_cons]

/-- Witness for C9 at a concrete non-running state. -/
theorem end_round_not_running_noop_witness :
    end_round ⟨[1, 2], 0, "tree", fun l => l.headD 0⟩ { code := "ABCD12" } "time"
      = ({ code := "ABCD12" }, []) :=
  (end_round_not_running_noop ⟨[1, 2], 0, "tree", fun l => l.headD 0⟩
    { code := "ABCD12" } "time").1 (by decide)

/-- Claim C10: a `chat` message that is empty (or whitespace-only, so that
it strips to empty) is dropped before any processing: no envelope is
emitted to anyone, no rate-limit state is touched, and the game state is
returned unchanged. -/
theorem receive_chat_drops_blank (env : Env) (s : GameState) (user_id : Int)
    (name : String) (raw_message : Option String) (client_id : Option String)
    (h : pyStrip (raw_message.getD "") = "") :
    receive_chat env s user_id name raw_message client_id = (s, []) := by
  unfold receive_chat
  simp [h]

/-- Witness for C10 on a whitespace-only message. -/
theorem receive_chat_drops_blank_witness :
    receive_chat ⟨[1, 2], 0, "tree", fun l => l.headD 0⟩ { code := "ABCD12" }
      2 "B" (some "   ") none = ({ code := "ABCD12" }, []) :=
  receive_chat_drops_blank ⟨[1, 2], 0, "tree", fun l => l.headD 0⟩
    { code := "ABCD12" } 2 "B" (some "   ") none (by decide)

/-- Counterexample to C6 as stated: at the default `round_seconds = 120`
the claimed TTL would be 135 seconds, but a fresh `claim_timer_owner`
write uses TTL 17 seconds. -/
theorem claim_timer_owner_ttl_counterexample :
    (claim_timer_owner "chan" none 1 0).written_ttl = some 17 ∧ (17 : Int) ≠ 120 + 15 := by
  exact ⟨by decide, by decide⟩

/-- Claim C6 (amended): every write performed by `claim_timer_owner`
(fresh `NX` write or unconditional supersede) uses TTL
`max(10, TIMER_OWNER_GRACE_SECONDS + 2) = 17` seconds, not
`round_seconds + 15`. -/
theorem claim_timer_owner_ttl :
    (∀ (channel : String) (round_index : Int) (started_at : ℚ),
      (claim_timer_owner channel none round_index started_at).written_ttl
        = some (max 10 (TIMER_OWNER_GRACE_SECONDS + 2))) ∧
    (∀ (channel : String) (current : Option TimerOwner) (round_index : Int)
        (started_at : ℚ),
      (claim_timer_owner channel current round_index started_at).written_ttl = none ∨
      (claim_timer_owner channel current round_index started_at).written_ttl
        = some (max 10 (TIMER_OWNER_GRACE_SECONDS + 2))) ∧
    max 10 (TIMER_OWNER_GRACE_SECONDS + 2) = 17 := by
  refine ⟨fun _ _ _ => rfl, fun ch cur ri sa => ?_, by decide⟩
  cases cur with
  | none => exact Or.inr rfl
  | some c =>
    unfold claim_timer_owner
    by_cases h : c.round_index ≠ ri ∨ abs (c.started_at - sa) > 1 / 100
    · exact Or.inr (by simp only [if_pos h])
    · exact Or.inl (by simp only [if_neg h])

/-- Counterexample to C3 as stated: on a finished game (where
`round_index` has reached `max_rounds`) with 2 active members,
`start_game` does not transition to running; `start_round` re-enters
`finish_game` and the status stays "finished". -/
theorem start_game_finished_counterexample :
    (start_game ⟨[1, 2], 0, "tree", fun l => l.headD 0⟩
      { code := "ABCD12", status := "finished", round_index := 10 }).1.status
      ≠ "running" := by
  decide

/-- Claim C3 (amended): a `start_game` received while the status is
waiting or finished, with at least 2 active members, starts a new round
(status becomes running and `round_index` increments) provided
`round_index < max_rounds`; in the finished state reached normally
(`round_index = max_rounds`) it re-finishes instead. -/
theorem start_game_starts (env : Env) (s : GameState)
    (hstatus : s.status = "waiting" ∨ s.status = "finished")
    (hmembers : 2 ≤ env.active_ids.length)
    (hround : s.round_index < s.max_rounds) :
    (start_game env s).1.status = "running" ∧
    (start_game env s).1.round_index = s.round_index + 1 := by
  have hne : s.status ≠ "running" := by
    rcases hstatus with h | h <;> simp [h]
  have hlen : ¬ env.active_ids.length < 2 := Nat.not_lt.mpr hmembers
  have hr : ¬ s.round_index + 1 > s.max_rounds := by omega
  unfold start_game start_round
  simp [hne, hlen, hr]

/-- Witness for C3 (amended) on a waiting state with 2 members. -/
theorem start_game_starts_witness :
    (start_game ⟨[1, 2], 0, "tree", fun l => l.headD 0⟩
      { code := "ABCD12" }).1.status = "running" ∧
    (start_game ⟨[1, 2], 0, "tree", fun l => l.headD 0⟩
      { code := "ABCD12" }).1.round_index = 0 + 1 :=
  start_game_starts ⟨[1, 2], 0, "tree", fun l => l.headD 0⟩ { code := "ABCD12" }
    (Or.inl rfl) (by decide) (by decide)

/-- Counterexample to C8 as stated: on a waiting state with
`round_index = 1` (a game paused mid-way) and 2 active members,
`maybe_start_game` returns without invoking `start_round`. -/
theorem maybe_start_game_midgame_counterexample :
    (maybe_start_game ⟨[1, 2], 0, "tree", fun l => l.headD 0⟩
      { code := "ABCD12", status := "waiting", round_index := 1 })
      = ({ code := "ABCD12", status := "waiting", round_index := 1 }, [], false) := by
  decide

/-- Claim C8 (amended): on admission, `maybe_start_game` invokes
`start_round` only for a fresh waiting game: status waiting,
`round_index = 0`, and at least 2 active members; with `round_index > 0`
it returns immediately. -/
theorem maybe_start_game_fresh (env : Env) (s : GameState)
    (h1 : s.status = "waiting") (h2 : s.round_index = 0)
    (h3 : 2 ≤ env.active_ids.length) :
    (maybe_start_game env s).2.2 = true ∧
    (maybe_start_game env s).1 = (start_round env s).1 := by
  have hcond : ¬ (s.status ≠ "waiting" ∨ s.round_index > 0) := by
    push_neg
    exact ⟨h1, by omega⟩
  unfold maybe_start_game
  simp [hcond, Nat.le_of_lt, h3]

/-- Witness for C8 (amended) on a fresh waiting state with 2 members. -/
theorem maybe_start_game_fresh_witness :
    (maybe_start_game ⟨[1, 2], 0, "tree", fun l => l.headD 0⟩
      { code := "ABCD12" }).2.2 = true ∧
    (maybe_start_game ⟨[1, 2], 0, "tree", fun l => l.headD 0⟩
      { code := "ABCD12" }).1
      = (start_round ⟨[1, 2], 0, "tree", fun l => l.headD 0⟩ { code := "ABCD12" }).1 :=
  maybe_start_game_fresh ⟨[1, 2], 0, "tree", fun l => l.headD 0⟩ { code := "ABCD12" }
    rfl rfl (by decide)

/-- A state with a kick vote in progress against user 4, used to
instantiate the close-code results. -/
def kickSampleC4 : GameState :=
  { code := "ABCD12", kick_votes := [(4, {1, 2, 3})], kick_responses := [(4, {1, 2, 3})] }

/-- Counterexample to C4 as stated: a resolved kick vote and a `leave`
both broadcast the self-close command with close code 4003, and no
emission carries the claimed 4403. -/
theorem kick_close_code_counterexample :
    Emit.group (.directDisconnect 4 4003) ∈ (kick_user kickSampleC4 4 "Voted out").2 ∧
    Emit.group (.directDisconnect 4 4403) ∉ (kick_user kickSampleC4 4 "Voted out").2 ∧
    Emit.group (.directDisconnect 7 4003) ∈ (handle_leave [1] kickSampleC4 7).2 ∧
    Emit.group (.directDisconnect 7 4403) ∉ (handle_leave [1] kickSampleC4 7).2 := by
  decide

theorem no_disconnect_in_pause (active_ids : List Int) (s : GameState) (t c : Int) :
    Emit.group (.directDisconnect t c) ∉ (maybe_pause_game active_ids s).2 := by
  unfold maybe_pause_game
  split_ifs <;> simp

/-- Claim C4 (amended): every `direct_disconnect_user` command emitted by
`kick_user` (vote resolution) or `handle_leave` targets its user with
close code 4003 — not 4403 — and each of the two paths does emit exactly
such a command, so the kicked or leaving user's sockets self-close with
code 4003. -/
theorem kick_and_leave_close_code (s : GameState) (active_after : List Int)
    (t uid : Int) (reason : String) :
    Emit.group (.directDisconnect t 4003) ∈ (kick_user s t reason).2 ∧
    Emit.group (.directDisconnect uid 4003) ∈ (handle_leave active_after s uid).2 ∧
    (∀ t2 c, Emit.group (.directDisconnect t2 c) ∈ (kick_user s t reason).2 → c = 4003) ∧
    (∀ t2 c, Emit.group (.directDisconnect t2 c) ∈ (handle_leave active_after s uid).2
      → c = 4003) := by
  refine ⟨?_, ?_, ?_, ?_⟩
  · unfold kick_user cancel_kick_vote
    simp
  · unfold handle_leave maybe_pause_game
    split_ifs <;> simp
  · unfold kick_user cancel_kick_vote
    intro t2 c h
    simp at h
    exact h.2
  · intro t2 c h
    simp only [handle_leave, List.mem_append] at h
    rcases h with h | h
    · simp at h
      exact h.2
    · exact absurd h (no_disconnect_in_pause active_after _ _ _)

/-- Witness for C4 (amended) on the sample kick vote. -/
theorem kick_and_leave_close_code_witness :
    Emit.group (.directDisconnect 4 4003) ∈ (kick_user kickSampleC4 4 "Voted out").2 :=
  (kick_and_leave_close_code kickSampleC4 [1] 4 7 "Voted out").1

/-- Counterexample to C5 as stated: with 2.5 seconds of cooldown left
(`chat_cooldowns[2] = 5/2`, `now = 0`) the code replies `seconds = 2`
(Python `max(1, int(2.5))`, truncation), while `ceil(5/2 - 0) = 3`. -/
theorem chat_cooldown_ceil_counterexample :
    (handle_chat_guess ⟨[1, 2], 0, "tree", fun l => l.headD 0⟩
        { code := "ABCD12", chat_cooldowns := [(2, Rat.divInt 5 2)] } 2 "B" "hi" none).2
      = [Emit.toSender (.chatCooldown 2 none)] ∧
    (2 : Int) ≠ ratCeil (Rat.divInt 5 2 - 0) := by
  constructor
  · have hq : qdictGetD [(2, Rat.divInt 5 2)] 2 0 = Rat.divInt 5 2 := by decide
    have hlt : (0 : ℚ) < qdictGetD [(2, Rat.divInt 5 2)] 2 0 := by decide
    have hpy : max 1 (pyInt (qdictGetD [(2, Rat.divInt 5 2)] 2 0)) = 2 := by
      rw [hq]
      decide
    unfold handle_chat_guess check_chat_allowed
    simp [hlt, hpy]
  · rw [sub_zero]
    decide

/-- Claim C5 (amended): for a sender whose cooldown is still active
(`now < chat_cooldowns[sender]`) and who is not blocked as the current
drawer, the pipeline replies to the sender alone with a `chat_cooldown`
envelope whose `seconds` field is `max(1, int(chat_cooldowns[sender] -
now))` — truncation floored at 1, not the ceiling — the message is not
fanned out, and the state is unchanged. -/
theorem chat_cooldown_reply (env : Env) (s : GameState) (user_id : Int)
    (name message : String) (client_id : Option String)
    (hnb : ¬ (s.status = "running" ∧ s.drawer_id = some user_id))
    (hcd : env.now < qdictGetD s.chat_cooldowns user_id 0) :
    handle_chat_guess env s user_id name message client_id
      = (s, [Emit.toSender (.chatCooldown
          (max 1 (pyInt (qdictGetD s.chat_cooldowns user_id 0 - env.now))) client_id)]) := by
  unfold handle_chat_guess check_chat_allowed
  simp [hnb, hcd]

/-- Witness for C5 (amended) at 2.5 seconds of remaining cooldown. -/
theorem chat_cooldown_reply_witness :
    handle_chat_guess ⟨[1, 2], 0, "tree", fun l => l.headD 0⟩
        { code := "ABCD12", chat_cooldowns := [(2, Rat.divInt 5 2)] } 2 "B" "hi" none
      = ({ code := "ABCD12", chat_cooldowns := [(2, Rat.divInt 5 2)] },
         [Emit.toSender (.chatCooldown
           (max 1 (pyInt (qdictGetD [(2, Rat.divInt 5 2)] 2 0 - 0))) none)]) :=
  chat_cooldown_reply ⟨[1, 2], 0, "tree", fun l => l.headD 0⟩
    { code := "ABCD12", chat_cooldowns := [(2, Rat.divInt 5 2)] } 2 "B" "hi" none
    (by decide) (by decide)

/-- Environment for the C1 literal scenario: active members A=1 (drawer),
B=2, C=3; word "apple". -/
def envC1 : Env := ⟨[1, 2, 3], 0, "apple", fun l => l.headD 0⟩

/-- Running state for the C1 literal scenario. -/
def stateC1 : GameState :=
  { code := "ABCD12"
    status := "running"
    drawer_id := some 1
    word := some "apple"
    scores := [(1, 0), (2, 0), (3, 0)] }

/-- B's correct guess in the C1 scenario. -/
def guessB : GameState × List Emit := handle_chat_guess envC1 stateC1 2 "B" "apple" none

/-- C's subsequent correct guess in the C1 scenario. -/
def guessC : GameState × List Emit := handle_chat_guess envC1 guessB.1 3 "C" "apple" none

/-- Claim C1: in a running state, a correct guess by a sender who is not
the drawer and not yet in `guessed` awards `max(20, 100 - 10*g)` points,
with `g` the size of `guessed` before the sender is added; the sender is
added to `guessed`, the sender's score rises by exactly the points, and
the drawer's score rises by exactly 10 when a drawer exists (a truthy,
hence nonzero, `drawer_id`).  The literal scenario holds: with drawer A=1
and guessers B=2 then C=3 on "apple", B gains 100 and A gains 10, then C
gains 90 and A gains another 10, and `round_end` fires with reason
"all_guessed". -/
theorem correct_guess_scoring (s : GameState) (w : String) (user_id d : Int)
    (hrun : s.status = "running") (hw : s.word = some w)
    (hd : s.drawer_id = some d) (hd0 : d ≠ 0) (hne : s.drawer_id ≠ some user_id)
    (hng : user_id ∉ s.guessed) :
    (apply_correct_guess s user_id).2 = max 20 (100 - 10 * (s.guessed.card : Int)) ∧
    (apply_correct_guess s user_id).1.guessed = insert user_id s.guessed ∧
    dictGetD (apply_correct_guess s user_id).1.scores user_id 0
      = dictGetD s.scores user_id 0 + max 20 (100 - 10 * (s.guessed.card : Int)) ∧
    dictGetD (apply_correct_guess s user_id).1.scores d 0
      = dictGetD s.scores d 0 + 10 ∧
    guessB.1.scores = [(1, 10), (2, 100), (3, 0)] ∧
    guessC.1.scores = [(1, 20), (2, 100), (3, 90)] ∧
    Emit.group (.roundEnd "apple" [("1", 20), ("2", 100), ("3", 90)] 5 "all_guessed")
      ∈ guessC.2 := by
  have hdu : d ≠ user_id := fun habs => hne (habs ▸ hd)
  refine ⟨rfl, ?_, ?_, ?_, by decide, by decide, by decide⟩
  · simp [apply_correct_guess, hd, hd0]
  · simp only [apply_correct_guess, hd, hd0, ne_eq, not_false_iff, if_true]
    rw [dictGetD_dictSet_ne _ _ _ _ _ (Ne.symm hdu), dictGetD_dictSet_self]
  · simp only [apply_correct_guess, hd, hd0, ne_eq, not_false_iff, if_true]
    rw [dictGetD_dictSet_self, dictGetD_dictSet_ne _ _ _ _ _ hdu]

/-- Witness for C1 at B's guess in the scenario state. -/
theorem correct_guess_scoring_witness :
    dictGetD (apply_correct_guess stateC1 2).1.scores 2 0
      = dictGetD stateC1.scores 2 0
        + max 20 (100 - 10 * ((stateC1.guessed.card : Int))) :=
  (correct_guess_scoring stateC1 "apple" 2 1 rfl rfl rfl (by decide) (by decide)
    (by decide)).2.2.1


/-- Score of a user as read everywhere in the engine: `scores.get(u, 0)`. -/
def getScore (s : GameState) (uid : Int) : Int := dictGetD s.scores uid 0

theorem scores_finish_game (s : GameState) : (finish_game s).1.scores = s.scores := rfl

theorem scores_start_round (env : Env) (s : GameState) :
    (start_round env s).1.scores = s.scores := by
  unfold start_round finish_game
  split_ifs <;> rfl

theorem scores_start_game (env : Env) (s : GameState) :
    (start_game env s).1.scores = s.scores := by
  unfold start_game
  split_ifs
  · rfl
  · exact scores_start_round env s

theorem scores_end_round (env : Env) (s : GameState) (reason : String) :
    (end_round env s reason).1.scores = s.scores := by
  simp only [end_round]
  split_ifs
  · rfl
  · rw [scores_start_round]
  · rw [scores_finish_game]

theorem scores_maybe_start_game (env : Env) (s : GameState) :
    (maybe_start_game env s).1.scores = s.scores := by
  simp only [maybe_start_game]
  split_ifs
  · rfl
  · rw [scores_start_round]
  · rfl

theorem scores_maybe_pause_game (active_ids : List Int) (s : GameState) :
    (maybe_pause_game active_ids s).1.scores = s.scores := by
  unfold maybe_pause_game
  split_ifs <;> rfl

theorem scores_kick_user (s : GameState) (t : Int) (r : String) :
    (kick_user s t r).1.scores = s.scores := rfl

theorem scores_handle_kick_request (env : Env) (s : GameState) (uid t : Int) :
    (handle_kick_request env s uid t).1.scores = s.scores := by
  simp only [handle_kick_request]
  split_ifs <;> rfl

theorem scores_handle_kick_vote (env : Env) (s : GameState) (uid t : Int) (a : Bool) :
    (handle_kick_vote env s uid t a).1.scores = s.scores := by
  simp only [handle_kick_vote]
  split_ifs <;> rfl

theorem scores_handle_leave (active_after : List Int) (s : GameState) (uid : Int) :
    (handle_leave active_after s uid).1.scores = s.scores := by
  simp only [handle_leave]
  rw [scores_maybe_pause_game]

theorem scores_check_chat_allowed (s : GameState) (uid : Int) (now : ℚ) :
    (check_chat_allowed s uid now).1.scores = s.scores := by
  simp only [check_chat_allowed]
  split_ifs <;> rfl

theorem getScore_connect_register (s : GameState) (uid : Int) (ch : String) (u : Int) :
    getScore (connect_register s uid ch) u = getScore s u := by
  unfold connect_register getScore
  exact dictGetD_dictSetd_default s.scores uid u 0

theorem getScore_apply_correct_guess_mono (s : GameState) (uid u : Int) :
    getScore s u ≤ getScore (apply_correct_guess s uid).1 u := by
  unfold apply_correct_guess getScore
  have hpts : (0 : Int) < max 20 (100 - 10 * (s.guessed.card : Int)) :=
    lt_of_lt_of_le (by norm_num) (le_max_left _ _)
  simp only
  cases hdr : s.drawer_id with
  | none =>
    dsimp only
    by_cases hu : u = uid
    · subst hu
      rw [dictGetD_dictSet_self]
      omega
    · rw [dictGetD_dictSet_ne _ _ _ _ _ hu]
  | some d =>
    dsimp only
    by_cases hd0 : d ≠ 0
    · rw [if_pos hd0]
      dsimp only
      by_cases hud : u = d
      · subst hud
        rw [dictGetD_dictSet_self]
        by_cases hu : u = uid
        · subst hu
          rw [dictGetD_dictSet_self]
          omega
        · rw [dictGetD_dictSet_ne _ _ _ _ _ hu]
          omega
      · rw [dictGetD_dictSet_ne _ _ _ _ _ hud]
        by_cases hu : u = uid
        · subst hu
          rw [dictGetD_dictSet_self]
          omega
        · rw [dictGetD_dictSet_ne _ _ _ _ _ hu]
    · rw [if_neg hd0]
      dsimp only
      by_cases hu : u = uid
      · subst hu
        rw [dictGetD_dictSet_self]
        omega
      · rw [dictGetD_dictSet_ne _ _ _ _ _ hu]

theorem getScore_handle_chat_guess_mono (env : Env) (s : GameState) (uid : Int)
    (name message : String) (cid : Option String) (u : Int) :
    getScore s u ≤ getScore (handle_chat_guess env s uid name message cid).1 u := by
  have hchk : getScore s u = getScore (check_chat_allowed s uid env.now).1 u := by
    unfold getScore
    rw [scores_check_chat_allowed]
  simp only [handle_chat_guess]
  split_ifs
  · exact le_refl _
  · exact le_of_eq hchk
  · calc getScore s u = getScore (check_chat_allowed s uid env.now).1 u := hchk
      _ ≤ getScore (apply_correct_guess (check_chat_allowed s uid env.now).1 uid).1 u :=
        getScore_apply_correct_guess_mono _ _ _
      _ = _ := by
        unfold getScore
        rw [scores_end_round]
  · calc getScore s u = getScore (check_chat_allowed s uid env.now).1 u := hchk
      _ ≤ getScore (apply_correct_guess (check_chat_allowed s uid env.now).1 uid).1 u :=
        getScore_apply_correct_guess_mono _ _ _
  · exact le_of_eq hchk

theorem getScore_receive_chat_mono (env : Env) (s : GameState) (uid : Int)
    (name : String) (raw : Option String) (cid : Option String) (u : Int) :
    getScore s u ≤ getScore (receive_chat env s uid name raw cid).1 u := by
  simp only [receive_chat]
  split_ifs
  · exact le_refl _
  · exact getScore_handle_chat_guess_mono env s uid name _ cid u

/-- One committed engine operation, as the C7 claim enumerates them:
socket admission, chat/guess handling, round start (directly or through
`start_game`/`maybe_start_game`), round end, pause, game finish, and the
kick paths including `leave`. -/
inductive EngineStep : GameState → GameState → Prop
  | connect (s : GameState) (uid : Int) (channel : String) :
      EngineStep s (connect_register s uid channel)
  | chat (env : Env) (s : GameState) (uid : Int) (name : String)
      (raw : Option String) (cid : Option String) :
      EngineStep s (receive_chat env s uid name raw cid).1
  | startRound (env : Env) (s : GameState) : EngineStep s (start_round env s).1
  | startGame (env : Env) (s : GameState) : EngineStep s (start_game env s).1
  | maybeStart (env : Env) (s : GameState) : EngineStep s (maybe_start_game env s).1
  | roundEnd (env : Env) (s : GameState) (reason : String) :
      EngineStep s (end_round env s reason).1
  | pause (active_ids : List Int) (s : GameState) :
      EngineStep s (maybe_pause_game active_ids s).1
  | finish (s : GameState) : EngineStep s (finish_game s).1
  | kickReq (env : Env) (s : GameState) (uid t : Int) :
      EngineStep s (handle_kick_request env s uid t).1
  | kickVote (env : Env) (s : GameState) (uid t : Int) (approve : Bool) :
      EngineStep s (handle_kick_vote env s uid t approve).1
  | kick (s : GameState) (t : Int) (reason : String) :
      EngineStep s (kick_user s t reason).1
  | leave (active_after : List Int) (s : GameState) (uid : Int) :
      EngineStep s (handle_leave active_after s uid).1

theorem engineStep_score_mono {s s2 : GameState} (h : EngineStep s s2) (u : Int) :
    getScore s u ≤ getScore s2 u := by
  cases h with
  | connect s uid ch => exact le_of_eq (getScore_connect_register s uid ch u).symm
  | chat env s uid name raw cid => exact getScore_receive_chat_mono env s uid name raw cid u
  | startRound env s =>
    unfold getScore
    rw [scores_start_round]
  | startGame env s =>
    unfold getScore
    rw [scores_start_game]
  | maybeStart env s =>
    unfold getScore
    rw [scores_maybe_start_game]
  | roundEnd env s reason =>
    unfold getScore
    rw [scores_end_round]
  | pause ids s =>
    unfold getScore
    rw [scores_maybe_pause_game]
  | finish s => exact le_refl _
  | kickReq env s uid t =>
    unfold getScore
    rw [scores_handle_kick_request]
  | kickVote env s uid t a =>
    unfold getScore
    rw [scores_handle_kick_vote]
  | kick s t reason => exact le_refl _
  | leave ids s uid =>
    unfold getScore
    rw [scores_handle_leave]

/-- Claim C7: along every sequence of committed engine operations
(connect admission, chat/guess handling, round start, round end, pause,
finish, kick request/vote/resolution, leave) the score recorded for any
user never decreases: `connect` only creates entries at 0, and the only
mutation is the correct-guess award of `max(20, 100-10g)` points to the
guesser plus 10 to the drawer, both positive. -/
theorem scores_monotone (s s2 : GameState)
    (h : Relation.ReflTransGen EngineStep s s2) (u : Int) :
    getScore s u ≤ getScore s2 u := by
  induction h with
  | refl => exact le_refl _
  | tail _ hstep ih => exact le_trans ih (engineStep_score_mono hstep u)

/-- Witness for C7 along a single concrete chat step. -/
theorem scores_monotone_witness :
    getScore { code := "ABCD12" } 2
      ≤ getScore (receive_chat ⟨[1, 2], 0, "tree", fun l => l.headD 0⟩
          { code := "ABCD12" } 2 "B" (some "hi") none).1 2 :=
  scores_monotone _ _
    (Relation.ReflTransGen.single
      (EngineStep.chat ⟨[1, 2], 0, "tree", fun l => l.headD 0⟩
        { code := "ABCD12" } 2 "B" (some "hi") none)) 2


end Skribbl
